import Mathlib

/-!
Verification of the FinanceAI ledger and analytics engine (src/main.py).

Shallow embedding conventions:
* Monetary amounts (Python floats holding 2-fraction-digit currency) are
  modelled as `Rat`; the claims under study concern signs, exact identities
  and clamping, none of which depend on binary floating point rounding.
* Calendar dates (stored as ISO text, parsed by pandas to datetimes) are
  modelled as a year/month/day record `Date` with `Date.toOrdinal` giving the
  proleptic-Gregorian day number (the standard days-from-civil computation),
  matching the day arithmetic of `pandas` timestamps.
* The SQLite `transactions` and `goals` tables are modelled as Lean lists of
  records; `INSERT` is list append, `SELECT ... WHERE user_id = ?` is
  `List.filter`, `ORDER BY date DESC` is a sort by descending date ordinal
  (ISO-8601 text ordering coincides with chronological ordering for the
  dates of the app).
* pandas filter/groupby/sum pipelines become the corresponding list
  operations; groupby keys are the deduplicated keys of the filtered rows
  (pandas additionally sorts the keys alphabetically; no claim here depends
  on key order, so key order is left as first occurrence).
-/

namespace FinanceAI

/-- A calendar date, year/month/day. -/
structure Date where
  year : Int
  month : Int
  day : Int
deriving DecidableEq, Repr

/-- Proleptic-Gregorian day number of a date (days-from-civil algorithm, as
used by calendar libraries; epoch 1970-01-01 = day 0).  This is the day
arithmetic behind pandas timestamp subtraction `.days`. -/
def Date.toOrdinal (dt : Date) : Int :=
  let y := if dt.month ≤ 2 then dt.year - 1 else dt.year
  let era := (if 0 ≤ y then y else y - 399) / 400
  let yoe := y - era * 400
  let mp := if 2 < dt.month then dt.month - 3 else dt.month + 9
  let doy := (153 * mp + 2) / 5 + dt.day - 1
  let doe := yoe * 365 + yoe / 4 - yoe / 100 + doy
  era * 146097 + doe - 719468

/-- A row of the `transactions` table (src/main.py lines 86-97): user key,
date, signed amount, category, free-text `description`, and the
income/expense `type` tag. -/
structure Transaction where
  user_id : Int
  date : Date
  amount : Rat
  category : String
  descr : String
  type : String
deriving DecidableEq, Repr

/-- A row of the `goals` table (src/main.py lines 100-110). -/
structure Goal where
  user_id : Int
  goal_name : String
  target_amount : Rat
  current_amount : Rat
  target_date : Date
deriving DecidableEq, Repr

/-- The method `FinanceAI.add_transaction` (src/main.py lines 184-191): a single
unconditional `INSERT` into the transactions table followed by commit.
The method performs no validation of amount, date or type. -/
def add_transaction (store : List Transaction) (user_id : Int) (date : Date)
    (amount : Rat) (category : String) (descr : String) (trans_type : String) :
    List Transaction :=
  store ++ [⟨user_id, date, amount, category, descr, trans_type⟩]

/-- Insert one element into a list sorted by descending date ordinal. -/
def insertByDateDesc (t : Transaction) : List Transaction → List Transaction
  | [] => [t]
  | u :: us =>
      if u.date.toOrdinal ≤ t.date.toOrdinal then t :: u :: us
      else u :: insertByDateDesc t us

/-- Sort transactions by descending date (`ORDER BY date DESC`). -/
def sortByDateDesc (l : List Transaction) : List Transaction :=
  l.foldr insertByDateDesc []

/-- The method `FinanceAI.get_transactions` (src/main.py lines 193-195):
`SELECT * FROM transactions WHERE user_id = ? ORDER BY date DESC`. -/
def get_transactions (store : List Transaction) (user_id : Int) :
    List Transaction :=
  sortByDateDesc (store.filter (fun t => t.user_id = user_id))

/-- Sign assignment at the add-transaction form (src/main.py line 396):
`final_amount = amount if trans_type == "income" else -amount`. -/
def final_amount (amount : Rat) (trans_type : String) : Rat :=
  if trans_type = "income" then amount else -amount

/-- The add-transaction button path (src/main.py lines 395-398): apply the
sign convention, then persist via `add_transaction`. -/
def ui_add_transaction (store : List Transaction) (user_id : Int) (date : Date)
    (amount : Rat) (category : String) (descr : String) (trans_type : String) :
    List Transaction :=
  add_transaction store user_id date (final_amount amount trans_type)
    category descr trans_type

/-- The add-goal button path (src/main.py lines 431-437): a single
unconditional `INSERT` into the goals table followed by commit; no
validation of `target_amount`. -/
def add_goal (store : List Goal) (user_id : Int) (goal_name : String)
    (target_amount current_amount : Rat) (target_date : Date) : List Goal :=
  store ++ [⟨user_id, goal_name, target_amount, current_amount, target_date⟩]

/-- Goal listing (src/main.py lines 441-442):
`SELECT * FROM goals WHERE user_id = ?`. -/
def get_goals (store : List Goal) (user_id : Int) : List Goal :=
  store.filter (fun g => g.user_id = user_id)

/-! ### Analytics Engine (dashboard and analytics tabs of `main`) -/

/-- Total income (src/main.py line 311):
`df[df.amount > 0].amount.sum()`. -/
def total_income (df : List Transaction) : Rat :=
  ((df.filter (fun t => 0 < t.amount)).map (fun t => t.amount)).sum

/-- Total expenses (src/main.py line 312):
`abs(df[df.amount < 0].amount.sum())`. -/
def total_expenses (df : List Transaction) : Rat :=
  |((df.filter (fun t => t.amount < 0)).map (fun t => t.amount)).sum|

/-- Net worth (src/main.py line 313): `total_income - total_expenses`. -/
def net_worth (df : List Transaction) : Rat :=
  total_income df - total_expenses df

/-- Fold computing the greatest date ordinal, seeded with the ordinal of the first row (the pandas `df.date.max()`). -/
def maxDateOrd (seed : Int) (ts : List Transaction) : Int :=
  ts.foldl (fun a t => max a t.date.toOrdinal) seed

/-- Fold computing the least date ordinal, seeded with the ordinal of the first row (the pandas `df.date.min()`). -/
def minDateOrd (seed : Int) (ts : List Transaction) : Int :=
  ts.foldl (fun a t => min a t.date.toOrdinal) seed

/-- Daily average (src/main.py line 341):
`net_worth / max(1, (df.date.max() - df.date.min()).days)`.
The dashboard computes it only under the `if not df.empty` guard
(line 306), so the empty set yields no value rather than an error. -/
def avg_daily (df : List Transaction) : Option Rat :=
  match df with
  | [] => none
  | t :: ts =>
      some (net_worth (t :: ts) /
        ((max 1 (maxDateOrd t.date.toOrdinal ts - minDateOrd t.date.toOrdinal ts) : Int) : Rat))

/-- Deduplicated category keys of a row set, as produced by a pandas
`groupby(category)` (pandas also sorts the keys alphabetically; no claim
depends on key order, so first-occurrence order is kept). -/
def categoryKeys (l : List Transaction) : List String :=
  (l.map (fun t => t.category)).dedup

/-- Expense-by-category breakdown (src/main.py line 354):
`df[df.amount < 0].groupby(category).amount.sum().abs()`. -/
def expense_by_category (df : List Transaction) : List (String × Rat) :=
  let ex := df.filter (fun t => t.amount < 0)
  (categoryKeys ex).map (fun c =>
    (c, |((ex.filter (fun t => t.category = c)).map (fun t => t.amount)).sum|))

/-- Deduplicated date keys of a row set (`groupby` on the calendar date). -/
def dateKeys (l : List Transaction) : List Date :=
  (l.map (fun t => t.date)).dedup

/-- One aligned series of the income-vs-expense trend (src/main.py lines
363-365): amounts grouped by calendar date for rows of the given `type`;
the expense series is made positive with `.abs()`.  Only dates carrying at
least one row of that type appear. -/
def daily_series (df : List Transaction) (ty : String) : List (Date × Rat) :=
  let rows := df.filter (fun t => t.type = ty)
  (dateKeys rows).map (fun d =>
    let s := ((rows.filter (fun t => t.date = d)).map (fun t => t.amount)).sum
    (d, if ty = "expense" then |s| else s))

/-- Month period key of a date (pandas `dt.to_period(M)`). -/
def monthKey (d : Date) : Int × Int := (d.year, d.month)

/-- Monthly spending trend (src/main.py lines 459-460):
`df[df.amount < 0].groupby(month).amount.sum().abs()`. -/
def monthly_spending (df : List Transaction) : List ((Int × Int) × Rat) :=
  let ex := df.filter (fun t => t.amount < 0)
  ((ex.map (fun t => monthKey t.date)).dedup).map (fun m =>
    (m, |((ex.filter (fun t => monthKey t.date = m)).map (fun t => t.amount)).sum|))

/-- Weekday names in Python `day_name()` spelling. -/
def dayNames : List String :=
  ["Monday", "Tuesday", "Wednesday", "Thursday", "Friday", "Saturday", "Sunday"]

/-- Day-of-week name of a date (pandas `dt.day_name()`); day 0 of the
ordinal epoch, 1970-01-01, was a Thursday. -/
def Date.dayName (d : Date) : String :=
  dayNames.getD ((d.toOrdinal + 3) % 7).toNat "Monday"

/-- Weekly spending pattern (src/main.py lines 477-478):
`df[df.amount < 0].groupby(day_of_week).amount.sum().abs()`. -/
def weekly_pattern (df : List Transaction) : List (String × Rat) :=
  let ex := df.filter (fun t => t.amount < 0)
  ((ex.map (fun t => t.date.dayName)).dedup).map (fun w =>
    (w, |((ex.filter (fun t => t.date.dayName = w)).map (fun t => t.amount)).sum|))

/-- Insertion step of the descending sort on category sums. -/
def insertBySumDesc (p : String × Rat × Nat) :
    List (String × Rat × Nat) → List (String × Rat × Nat)
  | [] => [p]
  | q :: qs =>
      if q.2.1 ≤ p.2.1 then p :: q :: qs else q :: insertBySumDesc p qs

/-- Category statistics table (src/main.py lines 470-473): per category the
pair `(sum, count)` of expense rows, absolute-valued, sorted by total spent
descending. -/
def category_stats (df : List Transaction) : List (String × Rat × Nat) :=
  let ex := df.filter (fun t => t.amount < 0)
  let table := (categoryKeys ex).map (fun c =>
    let g := ex.filter (fun t => t.category = c)
    (c, |(g.map (fun t => t.amount)).sum|, g.length))
  table.foldr insertBySumDesc []

/-- Insertion step of the descending sort on category totals. -/
def insertByValDesc (p : String × Rat) :
    List (String × Rat) → List (String × Rat)
  | [] => [p]
  | q :: qs =>
      if q.2 ≤ p.2 then p :: q :: qs else q :: insertByValDesc p qs

/-- Top-N category ranking (src/main.py line 498):
`df[df.amount < 0].groupby(category).amount.sum().abs().nlargest(n)`;
the source calls it with `n = 5`. -/
def top_spending_categories (df : List Transaction) (n : Nat) :
    List (String × Rat) :=
  ((expense_by_category df).foldr insertByValDesc []).take n

/-- Reported goal progress percent (src/main.py line 446):
`progress = (goal.current_amount / goal.target_amount) * 100`. -/
def goal_progress_percent (g : Goal) : Rat :=
  g.current_amount / g.target_amount * 100

/-- Displayed progress-bar fraction (src/main.py line 448):
`st.progress(min(progress / 100, 1.0))`. -/
def goal_progress_bar (g : Goal) : Rat :=
  min (goal_progress_percent g / 100) 1

/-! ### Concrete values used by witnesses and counterexamples -/

/-- A sample calendar date. -/
def julyFirst : Date := ⟨2024, 7, 1⟩

/-- The transaction row produced by a call with a non-positive amount. -/
def badAmountRow : Transaction := ⟨7, julyFirst, -5, "Food", "", "expense"⟩

/-- The goal row produced by a call with a zero target. -/
def badTargetGoal : Goal := ⟨7, "Car", 0, 0, julyFirst⟩

/-- Specification of the daily average: the net worth divided by
`max 1 (latest - earliest)` over the transaction dates, with divisor 1
(that is, no division at all) when latest and earliest coincide. -/
def dailyAverageSpec (df : List Transaction) : Prop :=
  ∃ M m : Int,
    M ∈ df.map (fun t => t.date.toOrdinal) ∧
    (∀ x ∈ df.map (fun t => t.date.toOrdinal), x ≤ M) ∧
    m ∈ df.map (fun t => t.date.toOrdinal) ∧
    (∀ x ∈ df.map (fun t => t.date.toOrdinal), m ≤ x) ∧
    avg_daily df = some (net_worth df / ((max 1 (M - m) : Int) : Rat)) ∧
    (M = m → avg_daily df = some (net_worth df))

/-- The three-transaction scenario from the spec (section 8). -/
def sampleLedger : List Transaction :=
  [⟨1, ⟨2024, 7, 1⟩, -50, "Food", "Grocery shopping", "expense"⟩,
   ⟨1, ⟨2024, 7, 3⟩, 3000, "Salary", "Monthly salary", "income"⟩,
   ⟨1, ⟨2024, 7, 10⟩, -75, "Food", "Restaurant", "expense"⟩]

/-! ### Claims -/

/-- C1, counterexample: `add_transaction` called with `amount = -5 <= 0`
does not fail; it appends the record to the Transaction Store, so the store
does gain a record, contrary to the claim. -/
theorem c1_counterexample :
    add_transaction [] 7 julyFirst (-5) "Food" "" "expense" = [badAmountRow] :=
  rfl

/-- C1 (amended): `FinanceAI.add_transaction` performs no validation at
all — even when the supplied amount is non-positive (and likewise for any
type string), the call succeeds, raises no `ValidationError` (none exists
in the code), and appends exactly the supplied record to the Transaction
Store; invalid inputs are prevented only by the UI form widgets. -/
theorem c1_add_transaction_no_validation
    (store : List Transaction) (user_id : Int) (date : Date) (amount : Rat)
    (category descr trans_type : String) (hbad : amount ≤ 0) :
    add_transaction store user_id date amount category descr trans_type =
      store ++ [⟨user_id, date, amount, category, descr, trans_type⟩] :=
  rfl

/-- C1, witness: the amended claim at a concrete invalid call. -/
theorem c1_witness :
    (-5 : Rat) ≤ 0 ∧
      add_transaction [] 7 julyFirst (-5) "Food" "" "expense" =
        [] ++ [⟨7, julyFirst, -5, "Food", "", "expense"⟩] :=
  ⟨by norm_num,
   c1_add_transaction_no_validation [] 7 julyFirst (-5) "Food" "" "expense"
     (by norm_num)⟩

/-- C2: for every valid input (`0 < amount`, type income or expense) the
add-transaction path persists the record with sign-adjusted amount:
`+amount` for income, `-amount` for expense, and the stored amount is
positive iff the type is income. -/
theorem c2_sign_convention
    (store : List Transaction) (user_id : Int) (date : Date) (amount : Rat)
    (category descr trans_type : String) (hpos : 0 < amount)
    (hty : trans_type = "income" ∨ trans_type = "expense") :
    ui_add_transaction store user_id date amount category descr trans_type =
      store ++ [⟨user_id, date, final_amount amount trans_type,
                 category, descr, trans_type⟩] ∧
    (trans_type = "income" → final_amount amount trans_type = amount) ∧
    (trans_type = "expense" → final_amount amount trans_type = -amount) ∧
    (0 < final_amount amount trans_type ↔ trans_type = "income") := by
  refine ⟨rfl, ?_, ?_, ?_⟩
  · intro h
    simp [final_amount, h]
  · intro h
    subst h
    simp [final_amount]
  · rcases hty with h | h <;> subst h
    · simpa [final_amount] using hpos
    · simp only [final_amount]
      rw [if_neg (by decide)]
      constructor
      · intro hlt
        exact absurd (lt_trans hlt (by linarith)) (lt_irrefl 0)
      · intro h
        exact absurd h (by decide)

/-- C2, witness: the sign convention at a concrete expense of magnitude 80. -/
theorem c2_witness :
    (0 : Rat) < 80 ∧ ("expense" = "income" ∨ "expense" = "expense") ∧
    (ui_add_transaction [] 7 julyFirst 80 "Food" "" "expense" =
      [] ++ [⟨7, julyFirst, final_amount 80 "expense", "Food", "", "expense"⟩] ∧
    ("expense" = "income" → final_amount 80 "expense" = 80) ∧
    ("expense" = "expense" → final_amount 80 "expense" = -80) ∧
    (0 < final_amount 80 "expense" ↔ "expense" = "income")) :=
  ⟨by norm_num, Or.inr rfl,
   c2_sign_convention [] 7 julyFirst 80 "Food" "" "expense" (by norm_num)
     (Or.inr rfl)⟩

/-- C4, counterexample: the add-goal path called with `target_amount = 0`
does not fail; it appends the goal record, so the Goal Store does contain
a new record, contrary to the claim. -/
theorem c4_counterexample :
    add_goal [] 7 "Car" 0 0 julyFirst = [badTargetGoal] :=
  rfl

/-- C4 (amended): the add-goal path performs no validation — even when
`target_amount <= 0` the call succeeds, raises no `ValidationError` (none
exists in the code), and appends exactly the supplied goal record; the UI
widget alone keeps form-entered targets at or above 1.0. -/
theorem c4_add_goal_no_validation
    (store : List Goal) (user_id : Int) (goal_name : String)
    (target_amount current_amount : Rat) (target_date : Date)
    (hbad : target_amount ≤ 0) :
    add_goal store user_id goal_name target_amount current_amount target_date =
      store ++ [⟨user_id, goal_name, target_amount, current_amount,
                 target_date⟩] :=
  rfl

/-- C4, witness: the amended claim at a concrete zero-target call. -/
theorem c4_witness :
    (0 : Rat) ≤ 0 ∧
      add_goal [] 7 "Car" 0 0 julyFirst =
        [] ++ [⟨7, "Car", 0, 0, julyFirst⟩] :=
  ⟨le_refl 0, c4_add_goal_no_validation [] 7 "Car" 0 0 julyFirst (le_refl 0)⟩

/-- C5: for a stored goal (positive target; the goal form keeps the current
amount non-negative), the reported percent equals `100 * current / target`
with no cap, while the displayed progress-bar fraction lies in `[0, 1]`. -/
theorem c5_percent_uncapped_bar_clamped (g : Goal)
    (htarget : 0 < g.target_amount) (hcur : 0 ≤ g.current_amount) :
    goal_progress_percent g = 100 * g.current_amount / g.target_amount ∧
    0 ≤ goal_progress_bar g ∧ goal_progress_bar g ≤ 1 := by
  have hpct : 0 ≤ goal_progress_percent g := by
    unfold goal_progress_percent
    positivity
  refine ⟨by unfold goal_progress_percent; ring, ?_, ?_⟩
  · unfold goal_progress_bar
    apply le_min _ (by norm_num)
    positivity
  · exact min_le_right _ _

/-- C5, witness: a goal with current 150 and target 100 reports an uncapped
percent (namely 150) while its displayed bar fraction is clamped to 1. -/
theorem c5_witness :
    (0 : Rat) < 100 ∧ (0 : Rat) ≤ 150 ∧
    (goal_progress_percent ⟨1, "Car", 100, 150, julyFirst⟩ =
       100 * 150 / 100 ∧
     0 ≤ goal_progress_bar ⟨1, "Car", 100, 150, julyFirst⟩ ∧
     goal_progress_bar ⟨1, "Car", 100, 150, julyFirst⟩ ≤ 1) ∧
    goal_progress_percent ⟨1, "Car", 100, 150, julyFirst⟩ = 150 ∧
    goal_progress_bar ⟨1, "Car", 100, 150, julyFirst⟩ = 1 := by
  refine ⟨by norm_num, by norm_num,
    c5_percent_uncapped_bar_clamped ⟨1, "Car", 100, 150, julyFirst⟩
      (by norm_num) (by norm_num), ?_, ?_⟩
  · unfold goal_progress_percent
    norm_num
  · unfold goal_progress_bar goal_progress_percent
    norm_num

/-- C6: on the empty transaction set every Analytics Engine derivation
yields its empty or zero value: zero totals and net worth, no daily-average
value (the source computes it only under the non-empty guard), and empty
category breakdown, trend series, monthly trend, weekly pattern, category
statistics and top-N ranking; none of these can raise, being total
functions. -/
theorem c6_empty_dataset_zero :
    total_income [] = 0 ∧ total_expenses [] = 0 ∧ net_worth [] = 0 ∧
    avg_daily [] = none ∧ expense_by_category [] = [] ∧
    daily_series [] "income" = [] ∧ daily_series [] "expense" = [] ∧
    monthly_spending [] = [] ∧ weekly_pattern [] = [] ∧
    category_stats [] = [] ∧ top_spending_categories [] 5 = [] := by
  refine ⟨rfl, ?_, ?_, rfl, rfl, rfl, rfl, rfl, rfl, rfl, rfl⟩
  · simp [total_expenses]
  · simp [net_worth, total_income, total_expenses]

/-- Summing the positive amounts by filtering equals summing positive
parts over the whole set. -/
theorem income_filter_sum_ite (df : List Transaction) :
    ((df.filter (fun t => 0 < t.amount)).map (fun t => t.amount)).sum =
      (df.map (fun t => if 0 < t.amount then t.amount else 0)).sum := by
  induction df with
  | nil => rfl
  | cons t ts ih =>
      by_cases h : (0 : Rat) < t.amount <;>
        simp [List.filter_cons, h, ih]

/-- Summing the negative amounts by filtering equals summing negative
parts over the whole set. -/
theorem expense_filter_sum_ite (df : List Transaction) :
    ((df.filter (fun t => t.amount < 0)).map (fun t => t.amount)).sum =
      (df.map (fun t => if t.amount < 0 then t.amount else 0)).sum := by
  induction df with
  | nil => rfl
  | cons t ts ih =>
      by_cases h : t.amount < (0 : Rat) <;>
        simp [List.filter_cons, h, ih]

/-- C3: total income is the sum of the positive amounts, total expenses is
the absolute value of the sum of the negative amounts, and net worth
satisfies `total_income - total_expenses = net_worth` exactly. -/
theorem c3_totals_identity (df : List Transaction) :
    total_income df =
      (df.map (fun t => if 0 < t.amount then t.amount else 0)).sum ∧
    total_expenses df =
      |(df.map (fun t => if t.amount < 0 then t.amount else 0)).sum| ∧
    total_income df - total_expenses df = net_worth df := by
  refine ⟨income_filter_sum_ite df, ?_, rfl⟩
  unfold total_expenses
  rw [expense_filter_sum_ite df]

/-- The max-fold over date ordinals returns the seed or an element, and
bounds the seed and every element from above. -/
theorem maxDateOrd_spec (ts : List Transaction) (seed : Int) :
    (maxDateOrd seed ts = seed ∨
      ∃ t ∈ ts, maxDateOrd seed ts = t.date.toOrdinal) ∧
    seed ≤ maxDateOrd seed ts ∧
    ∀ t ∈ ts, t.date.toOrdinal ≤ maxDateOrd seed ts := by
  induction ts generalizing seed with
  | nil => exact ⟨Or.inl rfl, le_refl _, by simp⟩
  | cons u us ih =>
      have step : maxDateOrd seed (u :: us) =
          maxDateOrd (max seed u.date.toOrdinal) us := rfl
      obtain ⟨hmem, hle, hbound⟩ := ih (max seed u.date.toOrdinal)
      refine ⟨?_, ?_, ?_⟩
      · rw [step]
        rcases hmem with h | ⟨t, ht, h⟩
        · rcases max_cases seed u.date.toOrdinal with ⟨he, _⟩ | ⟨he, _⟩
          · exact Or.inl (h.trans he)
          · exact Or.inr ⟨u, List.mem_cons_self u us, h.trans he⟩
        · exact Or.inr ⟨t, List.mem_cons_of_mem u ht, h⟩
      · rw [step]
        exact le_trans (le_max_left _ _) hle
      · intro t ht
        rw [step]
        rcases List.mem_cons.mp ht with h | h
        · subst h
          exact le_trans (le_max_right _ _) hle
        · exact hbound t h

/-- The min-fold over date ordinals returns the seed or an element, and
bounds the seed and every element from below. -/
theorem minDateOrd_spec (ts : List Transaction) (seed : Int) :
    (minDateOrd seed ts = seed ∨
      ∃ t ∈ ts, minDateOrd seed ts = t.date.toOrdinal) ∧
    minDateOrd seed ts ≤ seed ∧
    ∀ t ∈ ts, minDateOrd seed ts ≤ t.date.toOrdinal := by
  induction ts generalizing seed with
  | nil => exact ⟨Or.inl rfl, le_refl _, by simp⟩
  | cons u us ih =>
      have step : minDateOrd seed (u :: us) =
          minDateOrd (min seed u.date.toOrdinal) us := rfl
      obtain ⟨hmem, hle, hbound⟩ := ih (min seed u.date.toOrdinal)
      refine ⟨?_, ?_, ?_⟩
      · rw [step]
        rcases hmem with h | ⟨t, ht, h⟩
        · rcases min_cases seed u.date.toOrdinal with ⟨he, _⟩ | ⟨he, _⟩
          · exact Or.inl (h.trans he)
          · exact Or.inr ⟨u, List.mem_cons_self u us, h.trans he⟩
        · exact Or.inr ⟨t, List.mem_cons_of_mem u ht, h⟩
      · rw [step]
        exact le_trans hle (min_le_left _ _)
      · intro t ht
        rw [step]
        rcases List.mem_cons.mp ht with h | h
        · subst h
          exact le_trans hle (min_le_right _ _)
        · exact hbound t h

/-- C7: on every non-empty transaction set the daily average equals net
worth divided by `max 1 (days between the earliest and the latest date)`;
when all transactions share one date the divisor is 1. -/
theorem c7_daily_average (df : List Transaction) (h : df ≠ []) :
    dailyAverageSpec df := by
  match df with
  | [] => exact absurd rfl h
  | t :: ts =>
      obtain ⟨hMmem, hMseed, hMbound⟩ := maxDateOrd_spec ts t.date.toOrdinal
      obtain ⟨hmmem, hmseed, hmbound⟩ := minDateOrd_spec ts t.date.toOrdinal
      refine ⟨maxDateOrd t.date.toOrdinal ts, minDateOrd t.date.toOrdinal ts,
        ?_, ?_, ?_, ?_, rfl, ?_⟩
      · rcases hMmem with he | ⟨u, hu, he⟩
        · rw [he]
          exact List.mem_map_of_mem _ (List.mem_cons_self t ts)
        · rw [he]
          exact List.mem_map_of_mem _ (List.mem_cons_of_mem t hu)
      · intro x hx
        obtain ⟨u, hu, hux⟩ := List.mem_map.mp hx
        rcases List.mem_cons.mp hu with h | h
        · exact hux ▸ h ▸ hMseed
        · exact hux ▸ hMbound u h
      · rcases hmmem with he | ⟨u, hu, he⟩
        · rw [he]
          exact List.mem_map_of_mem _ (List.mem_cons_self t ts)
        · rw [he]
          exact List.mem_map_of_mem _ (List.mem_cons_of_mem t hu)
      · intro x hx
        obtain ⟨u, hu, hux⟩ := List.mem_map.mp hx
        rcases List.mem_cons.mp hu with h | h
        · exact hux ▸ h ▸ hmseed
        · exact hux ▸ hmbound u h
      · intro heq
        have h1 : (max 1 0 : Int) = 1 := by decide
        show some _ = some _
        rw [heq, sub_self, h1, Int.cast_one, div_one]

/-- C7, witness: the single-transaction history has a one-day span, so the
divisor is 1 and the daily average is the net worth itself. -/
theorem c7_witness :
    ([badAmountRow] ≠ ([] : List Transaction)) ∧
      dailyAverageSpec [badAmountRow] :=
  ⟨by simp, c7_daily_average [badAmountRow] (by simp)⟩

/-- A list of negative rationals has non-positive sum. -/
theorem sum_nonpos_of_neg (l : List Rat) (h : ∀ x ∈ l, x < 0) : l.sum ≤ 0 := by
  induction l with
  | nil => simp
  | cons a as ih =>
      have ha : a < 0 := h a (List.mem_cons_self a as)
      have has : as.sum ≤ 0 := ih (fun x hx => h x (List.mem_cons_of_mem a hx))
      simp only [List.sum_cons]
      linarith

/-- For a list of negative rationals, the absolute value of the sum is the
sum of the absolute values. -/
theorem abs_sum_eq_sum_abs_of_neg (l : List Rat) (h : ∀ x ∈ l, x < 0) :
    |l.sum| = (l.map (fun x => |x|)).sum := by
  induction l with
  | nil => simp
  | cons a as ih =>
      have ha : a < 0 := h a (List.mem_cons_self a as)
      have hall : ∀ x ∈ as, x < 0 := fun x hx => h x (List.mem_cons_of_mem a hx)
      have has : as.sum ≤ 0 := sum_nonpos_of_neg as hall
      have hsum : a + as.sum ≤ 0 := by linarith
      simp only [List.sum_cons, List.map_cons]
      rw [abs_of_nonpos hsum, abs_of_neg ha, ← ih hall, abs_of_nonpos has]
      ring

/-- The grouped-then-absolute value for one category equals the sum of the
absolute amounts of the expense rows of that category. -/
theorem breakdown_value_eq (df : List Transaction) (cat : String) :
    |(((df.filter (fun t => t.amount < 0)).filter
        (fun t => t.category = cat)).map (fun t => t.amount)).sum| =
      ((df.filter (fun t => t.amount < 0 ∧ t.category = cat)).map
        (fun t => |t.amount|)).sum := by
  have hcomb : (df.filter (fun t => t.amount < 0)).filter
      (fun t => t.category = cat) =
        df.filter (fun t => t.amount < 0 ∧ t.category = cat) := by
    rw [List.filter_filter]
    refine List.filter_congr ?_
    intro t _
    by_cases h1 : t.amount < 0 <;> by_cases h2 : t.category = cat <;>
      simp [h1, h2]
  rw [hcomb]
  have hneg : ∀ x ∈ (df.filter
      (fun t => t.amount < 0 ∧ t.category = cat)).map (fun t => t.amount),
      x < 0 := by
    intro x hx
    obtain ⟨t, ht, hte⟩ := List.mem_map.mp hx
    have hp := (List.mem_filter.mp ht).2
    simp only [decide_eq_true_eq] at hp
    exact hte ▸ hp.1
  rw [abs_sum_eq_sum_abs_of_neg _ hneg, List.map_map]
  rfl

/-- C8: a category appears in the expense breakdown iff it has at least one
expense transaction, and its value there is the sum of the absolute values
of the negative amounts of that category. -/
theorem c8_expense_breakdown (df : List Transaction) (cat : String) :
    ((∃ q, (cat, q) ∈ expense_by_category df) ↔
      ∃ t ∈ df, t.amount < 0 ∧ t.category = cat) ∧
    (∀ q, (cat, q) ∈ expense_by_category df →
      q = ((df.filter (fun t => t.amount < 0 ∧ t.category = cat)).map
            (fun t => |t.amount|)).sum) := by
  have hkey : ∀ q : Rat, (cat, q) ∈ expense_by_category df ↔
      (cat ∈ categoryKeys (df.filter (fun t => t.amount < 0)) ∧
        q = |(((df.filter (fun t => t.amount < 0)).filter
              (fun t => t.category = cat)).map (fun t => t.amount)).sum|) := by
    intro q
    simp only [expense_by_category, List.mem_map]
    constructor
    · rintro ⟨c, hc, hce⟩
      simp only [Prod.mk.injEq] at hce
      obtain ⟨h1, h2⟩ := hce
      subst h1
      exact ⟨hc, h2.symm⟩
    · rintro ⟨hc, rfl⟩
      exact ⟨cat, hc, rfl⟩
  have hmemkeys : cat ∈ categoryKeys (df.filter (fun t => t.amount < 0)) ↔
      ∃ t ∈ df, t.amount < 0 ∧ t.category = cat := by
    simp only [categoryKeys, List.mem_dedup, List.mem_map, List.mem_filter,
      decide_eq_true_eq]
    constructor
    · rintro ⟨t, ⟨htdf, htneg⟩, hteq⟩
      exact ⟨t, htdf, htneg, hteq⟩
    · rintro ⟨t, htdf, htneg, hteq⟩
      exact ⟨t, ⟨htdf, htneg⟩, hteq⟩
  constructor
  · constructor
    · rintro ⟨q, hq⟩
      exact hmemkeys.mp ((hkey q).mp hq).1
    · intro hex
      exact ⟨_, (hkey _).mpr ⟨hmemkeys.mpr hex, rfl⟩⟩
  · intro q hq
    rw [((hkey q).mp hq).2]
    exact breakdown_value_eq df cat

/-- C8, witness: the claim instantiated on the sample scenario of the spec at
category Food; in particular Food is present with value 125 and Salary,
having no expense rows, is absent. -/
theorem c8_witness :
    (((∃ q, ("Food", q) ∈ expense_by_category sampleLedger) ↔
      ∃ t ∈ sampleLedger, t.amount < 0 ∧ t.category = "Food") ∧
    (∀ q, ("Food", q) ∈ expense_by_category sampleLedger →
      q = ((sampleLedger.filter
            (fun t => t.amount < 0 ∧ t.category = "Food")).map
            (fun t => |t.amount|)).sum)) ∧
    expense_by_category sampleLedger = [("Food", 125)] :=
  ⟨c8_expense_breakdown sampleLedger "Food", by
    norm_num [expense_by_category, categoryKeys, sampleLedger,
      List.filter, List.dedup]⟩

/-- Membership in an insertion step of the date sort. -/
theorem mem_insertByDateDesc (t x : Transaction) (l : List Transaction) :
    x ∈ insertByDateDesc t l ↔ x = t ∨ x ∈ l := by
  induction l with
  | nil => simp [insertByDateDesc]
  | cons u us ih =>
      by_cases h : u.date.toOrdinal ≤ t.date.toOrdinal
      · simp [insertByDateDesc, h]
      · simp only [insertByDateDesc, if_neg h, List.mem_cons, ih]
        tauto

/-- Sorting by descending date neither adds nor removes rows. -/
theorem mem_sortByDateDesc (x : Transaction) (l : List Transaction) :
    x ∈ sortByDateDesc l ↔ x ∈ l := by
  induction l with
  | nil => simp [sortByDateDesc]
  | cons u us ih =>
      have step : sortByDateDesc (u :: us) =
          insertByDateDesc u (sortByDateDesc us) := rfl
      rw [step, mem_insertByDateDesc, ih, List.mem_cons]

/-- C9: a transaction persisted by `add_transaction` is listed back by
`get_transactions` for the same user as a record with the identical
date, amount, category, description and type fields. -/
theorem c9_round_trip (store : List Transaction) (user_id : Int) (date : Date)
    (amount : Rat) (category descr trans_type : String) :
    (⟨user_id, date, amount, category, descr, trans_type⟩ : Transaction) ∈
      get_transactions
        (add_transaction store user_id date amount category descr trans_type)
        user_id := by
  unfold get_transactions
  rw [mem_sortByDateDesc, List.mem_filter]
  refine ⟨?_, by simp⟩
  unfold add_transaction
  exact List.mem_append_right store (List.mem_singleton.mpr rfl)

/-- C10: recording a transaction or a goal for user `a` leaves the
listed transactions, listed goals, and therefore the derived analytics
(net worth shown as representative) and goal-progress outputs unchanged,
whenever `a` and `b` are distinct. -/
theorem c10_cross_user_frame (txStore : List Transaction)
    (goalStore : List Goal) (a b : Int) (date : Date) (amount : Rat)
    (category descr trans_type goal_name : String)
    (target_amount current_amount : Rat) (target_date : Date) (hab : a ≠ b) :
    get_transactions
        (add_transaction txStore a date amount category descr trans_type) b =
      get_transactions txStore b ∧
    get_goals (add_goal goalStore a goal_name target_amount current_amount
        target_date) b =
      get_goals goalStore b ∧
    net_worth (get_transactions
        (add_transaction txStore a date amount category descr trans_type) b) =
      net_worth (get_transactions txStore b) ∧
    (get_goals (add_goal goalStore a goal_name target_amount current_amount
        target_date) b).map goal_progress_percent =
      (get_goals goalStore b).map goal_progress_percent := by
  have htx : get_transactions
      (add_transaction txStore a date amount category descr trans_type) b =
        get_transactions txStore b := by
    unfold get_transactions add_transaction
    rw [List.filter_append]
    have : List.filter (fun t => decide (t.user_id = b))
        [(⟨a, date, amount, category, descr, trans_type⟩ : Transaction)] =
          [] := by
      simp [hab]
    rw [this, List.append_nil]
  have hgoal : get_goals (add_goal goalStore a goal_name target_amount
      current_amount target_date) b = get_goals goalStore b := by
    unfold get_goals add_goal
    rw [List.filter_append]
    have : List.filter (fun g => decide (g.user_id = b))
        [(⟨a, goal_name, target_amount, current_amount, target_date⟩ :
          Goal)] = [] := by
      simp [hab]
    rw [this, List.append_nil]
  exact ⟨htx, hgoal, by rw [htx], by rw [hgoal]⟩

/-- C10, witness: a concrete write for user 1 leaves the views of user 2
unchanged. -/
theorem c10_witness :
    (1 : Int) ≠ 2 ∧
    (get_transactions
        (add_transaction sampleLedger 1 julyFirst 80 "Food" "" "expense") 2 =
      get_transactions sampleLedger 2 ∧
    get_goals (add_goal [] 1 "Car" 100 0 julyFirst) 2 = get_goals [] 2 ∧
    net_worth (get_transactions
        (add_transaction sampleLedger 1 julyFirst 80 "Food" "" "expense") 2) =
      net_worth (get_transactions sampleLedger 2) ∧
    (get_goals (add_goal [] 1 "Car" 100 0 julyFirst) 2).map
        goal_progress_percent =
      (get_goals [] 2).map goal_progress_percent) :=
  ⟨by decide,
   c10_cross_user_frame sampleLedger [] 1 2 julyFirst 80 "Food" "" "expense"
     "Car" 100 0 julyFirst (by decide)⟩

end FinanceAI
